import Mathlib

/-!
Shallow embedding of the resilient fetch client `apiClient` from the
repository source (the module containing `endpointSchema`, `ApiError` and
`apiClient`).  The TypeScript source is:

```
const endpointSchema = z.string().min(1)
export class ApiError extends Error {}
export async function apiClient(endpoint: string, options?: RequestInit) {
  const path = endpointSchema.parse(endpoint)
  const controller = new AbortController()
  const timeout = setTimeout(() => controller.abort(), 10000)
  let lastError: unknown = null
  for (let attempt = 0; attempt < 3; attempt++) {
    try {
      const res = await fetch(BASE + path, { ...options, signal: controller.signal })
      clearTimeout(timeout)
      if (!res.ok) throw new ApiError(`Status ` + res.status)
      return await res.json()
    } catch (err) { lastError = err }
  }
  throw new ApiError(String(lastError))
}
```

The network environment is modelled as a function from the attempt index to
an `AttemptSpec`: how long that fetch would take, and what it would deliver
(a transport rejection or a response with a status and a body that either
parses as JSON or fails to parse).  Real time is modelled as the total
elapsed milliseconds since the call started; the single timer armed by
`setTimeout` fires, and aborts the shared controller, as soon as an attempt
would still be in flight strictly past the 10000 ms mark while the timer is
still armed.  A fetch issued on an already aborted controller rejects
immediately, consuming no time, as the platform `fetch` does.
-/

namespace ArtOfficial

/-- Reference carried in the `signal` slot of a request init: either a
signal supplied by the caller or the client's own `controller.signal`. -/
inductive SignalRef where
  | caller (id : Nat)
  | internal
deriving DecidableEq, Repr

/-- The transport options (`RequestInit`) passed by the caller: method,
headers and body are opaque to the client; `signal` may hold a
caller-supplied cancellation signal. -/
structure RequestInit where
  method : Option String := none
  headers : List (String × String) := []
  body : Option String := none
  signal : Option SignalRef := none
deriving DecidableEq, Repr

/-- The init object the client passes to `fetch`:
`{ ...options, signal: controller.signal }` — the caller's options spread
first, then `signal` overridden by the client's own controller signal. -/
def buildInit (options : RequestInit) : RequestInit :=
  { options with signal := some SignalRef.internal }

/-- A response body as seen by `res.json()`: it either parses to structured
data or `res.json()` rejects with a parse-error description. -/
inductive JsonBody where
  | valid (data : String)
  | invalid (desc : String)
deriving DecidableEq, Repr

/-- What a fetch would deliver if it ran to completion un-aborted: a
transport-level rejection (e.g. network failure) or an HTTP response. -/
inductive RawResult where
  | netError (desc : String)
  | response (status : Nat) (body : JsonBody)
deriving DecidableEq, Repr

/-- The environment's script for one attempt: how many milliseconds the
fetch would stay in flight, and what it would deliver. -/
structure AttemptSpec where
  duration : Nat
  result : RawResult
deriving DecidableEq, Repr

/-- The JavaScript error values that can arise in the client: the schema
validation error thrown by `endpointSchema.parse`, the client's own
`ApiError`, the `TypeError` of a failed fetch, the abort rejection, and the
parse error of a failed `res.json()`. -/
inductive JsError where
  | zodError (msg : String)
  | apiError (msg : String)
  | typeError (msg : String)
  | abortError
  | jsonError (msg : String)
deriving DecidableEq, Repr

/-- `String(err)` for each error value, as the final
`new ApiError(String(lastError))` renders it. -/
def jsErrorString : JsError → String
  | .zodError m => "ZodError: " ++ m
  | .apiError m => "Error: " ++ m
  | .typeError m => "TypeError: " ++ m
  | .abortError => "AbortError: The operation was aborted."
  | .jsonError m => "SyntaxError: " ++ m

/-- `String(lastError)` where `lastError` starts as `null`. -/
def jsStringOfLast : Option JsError → String
  | none => "null"
  | some e => jsErrorString e

/-- `res.ok`: status in the inclusive range 200–299. -/
def resOk (status : Nat) : Bool := 200 ≤ status && status ≤ 299

/-- The observable outcome of one executed attempt. -/
inductive Outcome where
  | aborted
  | netErr (desc : String)
  | badStatus (status : Nat)
  | okBody (body : JsonBody)
deriving DecidableEq, Repr

/-- The error value the `catch` block records for a failing outcome (for an
`okBody (valid _)` outcome the loop returns instead; the value is unused). -/
def errorOfOutcome : Outcome → JsError
  | .aborted => .abortError
  | .netErr d => .typeError d
  | .badStatus s => .apiError ("Status " ++ toString s)
  | .okBody (.invalid d) => .jsonError d
  | .okBody (.valid _) => .apiError ""

/-- Whether an outcome is a fully successful attempt: resolved without a
transport exception, success status, and a body that parsed. -/
def isCleanSuccess : Outcome → Bool
  | .okBody (.valid _) => true
  | _ => false

/-- Whether an outcome is one of the failure modes named by the spec's
exhaustion description: transport exception, abort, or non-success status. -/
def isListedFailure : Outcome → Bool
  | .aborted => true
  | .netErr _ => true
  | .badStatus _ => true
  | .okBody _ => false

/-- One recorded invocation of `fetch`: the URL and the init object. -/
structure FetchCall where
  url : String
  init : RequestInit
deriving DecidableEq, Repr

/-- The state of one in-progress call: elapsed milliseconds since the call
started, whether the `setTimeout` timer is still armed (not yet fired nor
cleared), whether the call's `AbortController` has been aborted, the
`lastError` variable, and the trace of fetch invocations and their
outcomes, in order. -/
structure CallState where
  elapsed : Nat
  timerArmed : Bool
  ctrlAborted : Bool
  lastError : Option JsError
  fetches : List FetchCall
  outcomes : List Outcome
deriving DecidableEq, Repr

/-- The value an `apiClient` call settles with. -/
inductive CallResult where
  | success (data : String)
  | failure (e : JsError)
deriving DecidableEq, Repr

/-- One iteration of the retry loop body: invoke `fetch` and handle its
result.  Returns `.inr (state, data)` when the iteration executes
`return await res.json()` successfully, and `.inl state` when the
iteration's `catch` recorded a failure and the loop continues. -/
def runAttempt (spec : AttemptSpec) (url : String) (init : RequestInit)
    (st : CallState) : CallState ⊕ (CallState × String) :=
  let stc : CallState := { st with fetches := st.fetches ++ [⟨url, init⟩] }
  if st.ctrlAborted then
    .inl { stc with outcomes := st.outcomes ++ [.aborted],
                    lastError := some .abortError }
  else if st.timerArmed && decide (10000 < st.elapsed + spec.duration) then
    .inl { stc with elapsed := 10000, timerArmed := false, ctrlAborted := true,
                    outcomes := st.outcomes ++ [.aborted],
                    lastError := some .abortError }
  else
    match spec.result with
    | .netError d =>
        .inl { stc with elapsed := st.elapsed + spec.duration,
                        outcomes := st.outcomes ++ [.netErr d],
                        lastError := some (.typeError d) }
    | .response status body =>
        if resOk status then
          match body with
          | .valid data =>
              .inr ({ stc with elapsed := st.elapsed + spec.duration,
                               timerArmed := false,
                               outcomes := st.outcomes ++ [.okBody (.valid data)] },
                    data)
          | .invalid d =>
              .inl { stc with elapsed := st.elapsed + spec.duration,
                              timerArmed := false,
                              outcomes := st.outcomes ++ [.okBody (.invalid d)],
                              lastError := some (.jsonError d) }
        else
          .inl { stc with elapsed := st.elapsed + spec.duration,
                          timerArmed := false,
                          outcomes := st.outcomes ++ [.badStatus status],
                          lastError := some (.apiError ("Status " ++ toString status)) }

/-- The retry loop `for (let attempt = 0; attempt < 3; attempt++)`, run
with `fuel` iterations remaining; the attempt index is the number of
fetches already issued.  When the fuel is exhausted the client executes
`throw new ApiError(String(lastError))`. -/
def attemptLoop (env : Nat → AttemptSpec) (url : String) (init : RequestInit) :
    Nat → CallState → CallState × CallResult
  | 0, st => (st, .failure (.apiError (jsStringOfLast st.lastError)))
  | Nat.succ k, st =>
      match runAttempt (env st.outcomes.length) url init st with
      | .inr (st', data) => (st', .success data)
      | .inl st' => attemptLoop env url init k st'

/-- Call state right after `setTimeout` armed the timer. -/
def initialState : CallState :=
  { elapsed := 0, timerArmed := true, ctrlAborted := false,
    lastError := none, fetches := [], outcomes := [] }

/-- The message of the `ZodError` raised by `z.string().min(1)` on an empty
string. -/
def zodMinMessage : String := "String must contain at least 1 character(s)"

/-- The whole `apiClient` call: validate the endpoint with
`endpointSchema.parse` (a `ZodError` escapes before the controller or the
timer exist and before any fetch), then arm the timer and run the loop up
to three times against the environment `env`. -/
def apiClient (baseUrl endpoint : String) (options : RequestInit)
    (env : Nat → AttemptSpec) : CallState × CallResult :=
  if 1 ≤ endpoint.length then
    attemptLoop env (baseUrl ++ endpoint) (buildInit options) 3 initialState
  else
    ({ elapsed := 0, timerArmed := false, ctrlAborted := false,
       lastError := none, fetches := [], outcomes := [] },
     .failure (.zodError zodMinMessage))

/-- The module-level state shared between calls.  The source module declares
only immutable bindings (`endpointSchema`, the `ApiError` class) besides
the externally supplied base address; it has no mutable module-level
variable, so the only datum that persists across calls is the base URL. -/
structure ModuleState where
  baseUrl : String
deriving DecidableEq, Repr

/-- One invocation of the client against the module state: the call reads
the base address and leaves the module state unchanged (the source function
assigns no module-level binding). -/
def moduleCall (ms : ModuleState) (endpoint : String) (options : RequestInit)
    (env : Nat → AttemptSpec) : (CallState × CallResult) × ModuleState :=
  (apiClient ms.baseUrl endpoint options env, ms)

/-- An empty `RequestInit`, all fields defaulted. -/
def emptyInit : RequestInit := {}

/-- Environment: first attempt resolves with status 200 but an unparsable
body; every later attempt resolves with status 200 and a parsable body. -/
def envParseThenOk : Nat → AttemptSpec := fun n =>
  if n = 0 then ⟨0, .response 200 (.invalid "Unexpected token u in JSON")⟩
  else ⟨0, .response 200 (.valid "articleB")⟩

/-- Environment: first attempt rejects at transport level; every later
attempt resolves with status 200 and a parsable body. -/
def envNetThenOk : Nat → AttemptSpec := fun n =>
  if n = 0 then ⟨0, .netError "fetch failed"⟩
  else ⟨0, .response 200 (.valid "articleB")⟩

/-- Environment: every attempt rejects immediately at transport level. -/
def envAllNetFail : Nat → AttemptSpec := fun _ => ⟨0, .netError "fetch failed"⟩

/-- Environment: every attempt resolves quickly with a parsable 200. -/
def envAllOk : Nat → AttemptSpec := fun _ => ⟨5, .response 200 (.valid "payload")⟩

/-- Environment: every attempt would stay in flight for 20000 ms. -/
def envAllSlow : Nat → AttemptSpec := fun _ => ⟨20000, .netError "slow"⟩

/-- Environment: the first attempt resolves within 1 ms with status 500
(clearing the timer), the second stays in flight 20000 ms before a
transport rejection, the third rejects immediately. -/
def envClearThenSlow : Nat → AttemptSpec := fun n =>
  if n = 0 then ⟨1, .response 500 (.valid "ignored")⟩
  else if n = 1 then ⟨20000, .netError "boom"⟩
  else ⟨0, .netError "late"⟩

/-- Environment: the first attempt resolves within 2 ms with status 404
(clearing the timer), the second stays in flight 30000 ms before a
transport rejection, the third rejects immediately. -/
def envStatusThenSlow : Nat → AttemptSpec := fun n =>
  if n = 0 then ⟨2, .response 404 (.valid "nf")⟩
  else if n = 1 then ⟨30000, .netError "timeout much later"⟩
  else ⟨0, .netError "immediate"⟩

/-- Environment: every attempt resolves immediately with status 200 and an
unparsable body. -/
def envParseOnly : Nat → AttemptSpec := fun _ => ⟨0, .response 200 (.invalid "bad json")⟩

/-- A call state as it stands right after the timeout fired and aborted the
controller. -/
def abortedState : CallState :=
  { elapsed := 10000, timerArmed := false, ctrlAborted := true,
    lastError := some .abortError, fetches := [], outcomes := [] }

end ArtOfficial

namespace ArtOfficial

/-! ### Step lemmas: the branches of one loop iteration -/

/-- A fetch issued on an already aborted controller rejects immediately:
no time passes, the attempt is recorded as aborted. -/
theorem runAttempt_instaAbort (spec : AttemptSpec) (url : String)
    (init : RequestInit) (st : CallState) (h : st.ctrlAborted = true) :
    runAttempt spec url init st =
      .inl { st with fetches := st.fetches ++ [⟨url, init⟩],
                     outcomes := st.outcomes ++ [.aborted],
                     lastError := some .abortError } := by
  simp [runAttempt, h]

/-- When the armed timer would expire while the fetch is still in flight,
the timer fires at the 10000 ms mark, aborts the controller, and the fetch
rejects with the abort error. -/
theorem runAttempt_timerFires (spec : AttemptSpec) (url : String)
    (init : RequestInit) (st : CallState) (h1 : st.ctrlAborted = false)
    (h2 : st.timerArmed = true) (h3 : 10000 < st.elapsed + spec.duration) :
    runAttempt spec url init st =
      .inl { st with fetches := st.fetches ++ [⟨url, init⟩],
                     elapsed := 10000, timerArmed := false, ctrlAborted := true,
                     outcomes := st.outcomes ++ [.aborted],
                     lastError := some .abortError } := by
  simp [runAttempt, h1, h2, h3]

/-- A transport-level rejection is caught and recorded in `lastError`; the
timer is NOT cleared on this path (the source's `clearTimeout` only runs
after `fetch` resolves). -/
theorem runAttempt_netError (spec : AttemptSpec) (url : String)
    (init : RequestInit) (st : CallState) (d : String)
    (h1 : st.ctrlAborted = false)
    (h2 : st.timerArmed = true → st.elapsed + spec.duration ≤ 10000)
    (h3 : spec.result = .netError d) :
    runAttempt spec url init st =
      .inl { st with fetches := st.fetches ++ [⟨url, init⟩],
                     elapsed := st.elapsed + spec.duration,
                     outcomes := st.outcomes ++ [.netErr d],
                     lastError := some (.typeError d) } := by
  have hc : (st.timerArmed && decide (10000 < st.elapsed + spec.duration)) = false := by
    cases harm : st.timerArmed
    · simp
    · simp only [Bool.true_and, decide_eq_false_iff_not, Nat.not_lt]
      exact h2 harm
  simp [runAttempt, h1, hc, h3]

/-- A resolved response with a success status and a parsable body: the
timer is cleared and the parsed data is returned, ending the loop. -/
theorem runAttempt_okValid (spec : AttemptSpec) (url : String)
    (init : RequestInit) (st : CallState) (status : Nat) (data : String)
    (h1 : st.ctrlAborted = false)
    (h2 : st.timerArmed = true → st.elapsed + spec.duration ≤ 10000)
    (h3 : spec.result = .response status (.valid data))
    (h4 : resOk status = true) :
    runAttempt spec url init st =
      .inr ({ st with fetches := st.fetches ++ [⟨url, init⟩],
                      elapsed := st.elapsed + spec.duration,
                      timerArmed := false,
                      outcomes := st.outcomes ++ [.okBody (.valid data)] },
            data) := by
  have hc : (st.timerArmed && decide (10000 < st.elapsed + spec.duration)) = false := by
    cases harm : st.timerArmed
    · simp
    · simp only [Bool.true_and, decide_eq_false_iff_not, Nat.not_lt]
      exact h2 harm
  simp [runAttempt, h1, hc, h3, h4]

/-- A resolved response with a success status whose body fails to parse:
the timer is cleared, `res.json()` rejects, and the `catch` records the
parse error; the loop continues. -/
theorem runAttempt_okInvalid (spec : AttemptSpec) (url : String)
    (init : RequestInit) (st : CallState) (status : Nat) (d : String)
    (h1 : st.ctrlAborted = false)
    (h2 : st.timerArmed = true → st.elapsed + spec.duration ≤ 10000)
    (h3 : spec.result = .response status (.invalid d))
    (h4 : resOk status = true) :
    runAttempt spec url init st =
      .inl { st with fetches := st.fetches ++ [⟨url, init⟩],
                     elapsed := st.elapsed + spec.duration,
                     timerArmed := false,
                     outcomes := st.outcomes ++ [.okBody (.invalid d)],
                     lastError := some (.jsonError d) } := by
  have hc : (st.timerArmed && decide (10000 < st.elapsed + spec.duration)) = false := by
    cases harm : st.timerArmed
    · simp
    · simp only [Bool.true_and, decide_eq_false_iff_not, Nat.not_lt]
      exact h2 harm
  simp [runAttempt, h1, hc, h3, h4]

/-- A resolved response with a non-success status: the timer is cleared and
`throw new ApiError` with the status message is caught and recorded. -/
theorem runAttempt_badStatus (spec : AttemptSpec) (url : String)
    (init : RequestInit) (st : CallState) (status : Nat) (body : JsonBody)
    (h1 : st.ctrlAborted = false)
    (h2 : st.timerArmed = true → st.elapsed + spec.duration ≤ 10000)
    (h3 : spec.result = .response status body)
    (h4 : resOk status = false) :
    runAttempt spec url init st =
      .inl { st with fetches := st.fetches ++ [⟨url, init⟩],
                     elapsed := st.elapsed + spec.duration,
                     timerArmed := false,
                     outcomes := st.outcomes ++ [.badStatus status],
                     lastError := some (.apiError ("Status " ++ toString status)) } := by
  have hc : (st.timerArmed && decide (10000 < st.elapsed + spec.duration)) = false := by
    cases harm : st.timerArmed
    · simp
    · simp only [Bool.true_and, decide_eq_false_iff_not, Nat.not_lt]
      exact h2 harm
  simp [runAttempt, h1, hc, h3, h4]

/-- Any iteration the loop continues past records exactly one failing
outcome, sets `lastError` to that outcome's error, and records exactly one
fetch invocation (with the loop's URL and init object). -/
theorem runAttempt_inl_char (spec : AttemptSpec) (url : String)
    (init : RequestInit) (st st' : CallState)
    (h : runAttempt spec url init st = .inl st') :
    ∃ o, st'.outcomes = st.outcomes ++ [o] ∧ isCleanSuccess o = false ∧
      st'.lastError = some (errorOfOutcome o) ∧
      st'.fetches = st.fetches ++ [⟨url, init⟩] ∧
      (st'.ctrlAborted = true →
        st'.elapsed = 10000 ∨ (st.ctrlAborted = true ∧ st'.elapsed = st.elapsed)) := by
  by_cases ha : st.ctrlAborted = true
  · rw [runAttempt_instaAbort spec url init st ha] at h
    obtain rfl := Sum.inl.inj h
    exact ⟨.aborted, rfl, rfl, rfl, rfl, fun _ => Or.inr ⟨ha, rfl⟩⟩
  · have ha' : st.ctrlAborted = false := by simpa using ha
    by_cases hb : st.timerArmed = true ∧ 10000 < st.elapsed + spec.duration
    · rw [runAttempt_timerFires spec url init st ha' hb.1 hb.2] at h
      obtain rfl := Sum.inl.inj h
      exact ⟨.aborted, rfl, rfl, rfl, rfl, fun _ => Or.inl rfl⟩
    · have h2 : st.timerArmed = true → st.elapsed + spec.duration ≤ 10000 := by
        intro harm
        by_contra hle
        exact hb ⟨harm, Nat.lt_of_not_le hle⟩
      cases hres : spec.result with
      | netError d =>
        rw [runAttempt_netError spec url init st d ha' h2 hres] at h
        obtain rfl := Sum.inl.inj h
        exact ⟨.netErr d, rfl, rfl, rfl, rfl, fun hc => absurd (ha'.symm.trans hc) (by simp)⟩
      | response status body =>
        cases hok : resOk status with
        | true =>
          cases body with
          | valid data =>
            rw [runAttempt_okValid spec url init st status data ha' h2 hres hok] at h
            exact absurd h (by simp)
          | invalid d =>
            rw [runAttempt_okInvalid spec url init st status d ha' h2 hres hok] at h
            obtain rfl := Sum.inl.inj h
            exact ⟨.okBody (.invalid d), rfl, rfl, rfl, rfl,
              fun hc => absurd (ha'.symm.trans hc) (by simp)⟩
        | false =>
          rw [runAttempt_badStatus spec url init st status body ha' h2 hres hok] at h
          obtain rfl := Sum.inl.inj h
          exact ⟨.badStatus status, rfl, rfl, rfl, rfl,
            fun hc => absurd (ha'.symm.trans hc) (by simp)⟩

/-- An iteration the loop returns from records exactly one fully
successful outcome carrying the returned data, and one fetch invocation. -/
theorem runAttempt_inr_char (spec : AttemptSpec) (url : String)
    (init : RequestInit) (st st' : CallState) (data : String)
    (h : runAttempt spec url init st = .inr (st', data)) :
    st'.outcomes = st.outcomes ++ [.okBody (.valid data)] ∧
    st'.fetches = st.fetches ++ [⟨url, init⟩] ∧
    st'.ctrlAborted = false := by
  by_cases ha : st.ctrlAborted = true
  · rw [runAttempt_instaAbort spec url init st ha] at h
    exact absurd h (by simp)
  · have ha' : st.ctrlAborted = false := by simpa using ha
    by_cases hb : st.timerArmed = true ∧ 10000 < st.elapsed + spec.duration
    · rw [runAttempt_timerFires spec url init st ha' hb.1 hb.2] at h
      exact absurd h (by simp)
    · have h2 : st.timerArmed = true → st.elapsed + spec.duration ≤ 10000 := by
        intro harm
        by_contra hle
        exact hb ⟨harm, Nat.lt_of_not_le hle⟩
      cases hres : spec.result with
      | netError d =>
        rw [runAttempt_netError spec url init st d ha' h2 hres] at h
        exact absurd h (by simp)
      | response status body =>
        cases hok : resOk status with
        | true =>
          cases body with
          | valid data0 =>
            rw [runAttempt_okValid spec url init st status data0 ha' h2 hres hok] at h
            have h' := Sum.inr.inj h
            rw [Prod.mk.injEq] at h'
            obtain ⟨rfl, rfl⟩ := h'
            exact ⟨rfl, rfl, ha'⟩
          | invalid d =>
            rw [runAttempt_okInvalid spec url init st status d ha' h2 hres hok] at h
            exact absurd h (by simp)
        | false =>
          rw [runAttempt_badStatus spec url init st status body ha' h2 hres hok] at h
          exact absurd h (by simp)

/-! ### Loop lemmas -/

/-- Unfolding: with no attempts left, the loop throws
`new ApiError(String(lastError))`. -/
theorem attemptLoop_zero (env : Nat → AttemptSpec) (url : String)
    (init : RequestInit) (st : CallState) :
    attemptLoop env url init 0 st =
      (st, .failure (.apiError (jsStringOfLast st.lastError))) := rfl

/-- Unfolding: an iteration whose `catch` recorded a failure continues the
loop with one fewer attempt remaining. -/
theorem attemptLoop_succ_inl (env : Nat → AttemptSpec) (url : String)
    (init : RequestInit) (k : Nat) (st st' : CallState)
    (h : runAttempt (env st.outcomes.length) url init st = .inl st') :
    attemptLoop env url init (k + 1) st = attemptLoop env url init k st' := by
  simp only [attemptLoop]
  rw [h]

/-- Unfolding: an iteration that reaches `return await res.json()` ends the
call with that attempt's parsed data. -/
theorem attemptLoop_succ_inr (env : Nat → AttemptSpec) (url : String)
    (init : RequestInit) (k : Nat) (st st' : CallState) (data : String)
    (h : runAttempt (env st.outcomes.length) url init st = .inr (st', data)) :
    attemptLoop env url init (k + 1) st = (st', .success data) := by
  simp only [attemptLoop]
  rw [h]

/-- The loop only appends to the traces: the final outcome and fetch lists
extend the starting ones by equally many entries, and every recorded fetch
uses the loop's URL and init object. -/
theorem attemptLoop_trace_extend (env : Nat → AttemptSpec) (url : String)
    (init : RequestInit) (k : Nat) :
    ∀ st : CallState, ∃ t f,
      (attemptLoop env url init k st).1.outcomes = st.outcomes ++ t ∧
      (attemptLoop env url init k st).1.fetches = st.fetches ++ f ∧
      t.length = f.length ∧ ∀ fc ∈ f, fc = ⟨url, init⟩ := by
  induction k with
  | zero =>
    intro st
    exact ⟨[], [], by simp [attemptLoop_zero], by simp [attemptLoop_zero], rfl,
      by intro fc hfc; exact absurd hfc (List.not_mem_nil fc)⟩
  | succ k ih =>
    intro st
    rcases hr : runAttempt (env st.outcomes.length) url init st with st' | ⟨st', data⟩
    · obtain ⟨o, ho, _, _, hf, _⟩ := runAttempt_inl_char _ _ _ _ _ hr
      obtain ⟨t, f, ht, hfe, hlen, hmem⟩ := ih st'
      refine ⟨o :: t, ⟨url, init⟩ :: f, ?_, ?_, ?_, ?_⟩
      · rw [attemptLoop_succ_inl env url init k st st' hr, ht, ho]
        simp
      · rw [attemptLoop_succ_inl env url init k st st' hr, hfe, hf]
        simp
      · simp [hlen]
      · intro fc hfc
        rcases List.mem_cons.mp hfc with rfl | hfc'
        · rfl
        · exact hmem fc hfc'
    · obtain ⟨ho, hf, _⟩ := runAttempt_inr_char _ _ _ _ _ _ hr
      refine ⟨[.okBody (.valid data)], [⟨url, init⟩], ?_, ?_, rfl, ?_⟩
      · rw [attemptLoop_succ_inr env url init k st st' data hr]
        exact ho
      · rw [attemptLoop_succ_inr env url init k st st' data hr]
        exact hf
      · intro fc hfc
        simpa using List.mem_singleton.mp hfc

/-- If the trace of a run contains a fully successful outcome at position
`n` (at or past the starting trace), the run returned that attempt's parsed
data and stopped right there: the final trace has exactly `n + 1` entries. -/
theorem attemptLoop_firstValid (env : Nat → AttemptSpec) (url : String)
    (init : RequestInit) (k : Nat) :
    ∀ (st : CallState) (n : Nat) (d : String),
      st.outcomes.length ≤ n →
      (attemptLoop env url init k st).1.outcomes.get? n = some (.okBody (.valid d)) →
      (attemptLoop env url init k st).2 = .success d ∧
      (attemptLoop env url init k st).1.outcomes.length = n + 1 := by
  induction k with
  | zero =>
    intro st n d hlen hget
    simp only [attemptLoop_zero] at hget
    rw [List.get?_eq_none.mpr hlen] at hget
    exact absurd hget (by simp)
  | succ k ih =>
    intro st n d hlen hget
    rcases hr : runAttempt (env st.outcomes.length) url init st with st' | ⟨st', data⟩
    · obtain ⟨o, ho, hclean, _, _, _⟩ := runAttempt_inl_char _ _ _ _ _ hr
      rw [attemptLoop_succ_inl env url init k st st' hr] at hget ⊢
      obtain ⟨t, f, ht, _, _, _⟩ := attemptLoop_trace_extend env url init k st'
      have hpos : (attemptLoop env url init k st').1.outcomes.get? st.outcomes.length
          = some o := by
        rw [ht, ho, List.append_assoc, List.get?_append_right (Nat.le_refl _)]
        simp
      rcases eq_or_lt_of_le hlen with heq | hlt
      · subst heq
        have hoe : o = .okBody (.valid d) := Option.some.inj (hpos.symm.trans hget)
        rw [hoe] at hclean
        simp [isCleanSuccess] at hclean
      · have hlen' : st'.outcomes.length ≤ n := by
          rw [ho]
          simp only [List.length_append, List.length_singleton]
          omega
        exact ih st' n d hlen' hget
    · obtain ⟨ho, _, _⟩ := runAttempt_inr_char _ _ _ _ _ _ hr
      rw [attemptLoop_succ_inr env url init k st st' data hr] at hget ⊢
      simp only at hget
      have hlen1 : st'.outcomes.length = st.outcomes.length + 1 := by
        rw [ho]
        simp
      have hn : n < st'.outcomes.length := by
        by_contra hcon
        rw [List.get?_eq_none.mpr (Nat.le_of_not_lt hcon)] at hget
        exact absurd hget (by simp)
      have hneq : n = st.outcomes.length := by omega
      subst hneq
      have hval : st'.outcomes.get? st.outcomes.length = some (.okBody (.valid data)) := by
        rw [ho, List.get?_append_right (Nat.le_refl _)]
        simp
      have hdd : data = d := by
        have h2 := Option.some.inj (hval.symm.trans hget)
        injection h2 with h3
        injection h3
      subst hdd
      exact ⟨rfl, hlen1⟩

/-- If no recorded outcome of a run is fully successful, the loop runs all
its remaining iterations, recording one fetch and one outcome each, keeps
`lastError` equal to the error of the last recorded outcome, and ends with
`throw new ApiError(String(lastError))`. -/
theorem attemptLoop_exhaust (env : Nat → AttemptSpec) (url : String)
    (init : RequestInit) (k : Nat) :
    ∀ st : CallState,
      st.lastError = st.outcomes.getLast?.map errorOfOutcome →
      (∀ o ∈ (attemptLoop env url init k st).1.outcomes, isCleanSuccess o = false) →
      (attemptLoop env url init k st).1.outcomes.length = st.outcomes.length + k ∧
      (attemptLoop env url init k st).1.fetches.length = st.fetches.length + k ∧
      (attemptLoop env url init k st).1.lastError =
        ((attemptLoop env url init k st).1.outcomes.getLast?).map errorOfOutcome ∧
      (attemptLoop env url init k st).2 =
        .failure (.apiError (jsStringOfLast (attemptLoop env url init k st).1.lastError)) := by
  induction k with
  | zero =>
    intro st hinv _
    exact ⟨rfl, rfl, hinv, rfl⟩
  | succ k ih =>
    intro st hinv hall
    rcases hr : runAttempt (env st.outcomes.length) url init st with st' | ⟨st', data⟩
    · obtain ⟨o, ho, _, hle, hf, _⟩ := runAttempt_inl_char _ _ _ _ _ hr
      rw [attemptLoop_succ_inl env url init k st st' hr] at hall ⊢
      have hinv' : st'.lastError = st'.outcomes.getLast?.map errorOfOutcome := by
        rw [hle, ho, List.getLast?_concat]
        rfl
      obtain ⟨h1, h2, h3, h4⟩ := ih st' hinv' hall
      refine ⟨?_, ?_, h3, h4⟩
      · rw [h1, ho]
        simp only [List.length_append, List.length_singleton]
        omega
      · rw [h2, hf]
        simp only [List.length_append, List.length_singleton]
        omega
    · obtain ⟨ho, _, _⟩ := runAttempt_inr_char _ _ _ _ _ _ hr
      rw [attemptLoop_succ_inr env url init k st st' data hr] at hall
      have hmem : Outcome.okBody (.valid data) ∈ st'.outcomes := by
        rw [ho]
        simp
      have hcs := hall _ hmem
      simp [isCleanSuccess] at hcs

/-- A non-empty string has length at least 1, i.e. passes
`z.string().min(1)`. -/
theorem one_le_length_of_ne_empty (s : String) (h : s ≠ "") : 1 ≤ s.length := by
  rcases s with ⟨l⟩
  cases l with
  | nil => exact absurd rfl h
  | cons c cs => simp [String.length]

/-- Once the controller has been aborted, the elapsed time is pegged at the
10000 ms mark and the loop never advances it again: aborting happens only at
the timer's deadline and post-abort fetches reject without waiting. -/
theorem attemptLoop_abort_elapsed (env : Nat → AttemptSpec) (url : String)
    (init : RequestInit) (k : Nat) :
    ∀ st : CallState, (st.ctrlAborted = true → st.elapsed = 10000) →
      (attemptLoop env url init k st).1.ctrlAborted = true →
      (attemptLoop env url init k st).1.elapsed = 10000 := by
  induction k with
  | zero =>
    intro st h
    exact h
  | succ k ih =>
    intro st h
    rcases hr : runAttempt (env st.outcomes.length) url init st with st' | ⟨st', data⟩
    · rw [attemptLoop_succ_inl env url init k st st' hr]
      obtain ⟨o, _, _, _, _, hctl⟩ := runAttempt_inl_char _ _ _ _ _ hr
      refine ih st' ?_
      intro hc
      rcases hctl hc with he | ⟨hst, he⟩
      · exact he
      · rw [he]
        exact h hst
    · rw [attemptLoop_succ_inr env url init k st st' data hr]
      obtain ⟨_, _, hctl⟩ := runAttempt_inr_char _ _ _ _ _ _ hr
      intro hc
      exact absurd (hctl.symm.trans hc) (by simp)

/-- With a non-empty endpoint, `endpointSchema.parse` succeeds and the call
is the three-attempt loop started from the freshly armed state. -/
theorem apiClient_ne_empty (baseUrl endpoint : String) (options : RequestInit)
    (env : Nat → AttemptSpec) (h : endpoint ≠ "") :
    apiClient baseUrl endpoint options env =
      attemptLoop env (baseUrl ++ endpoint) (buildInit options) 3 initialState := by
  rw [apiClient, if_pos (one_le_length_of_ne_empty endpoint h)]

/-- Every failure the loop itself settles with is an `ApiError`: the loop
body catches all per-attempt errors and the only `throw` that escapes it is
`new ApiError(String(lastError))`. -/
theorem attemptLoop_failure_is_apiError (env : Nat → AttemptSpec) (url : String)
    (init : RequestInit) (k : Nat) :
    ∀ (st : CallState) (e : JsError),
      (attemptLoop env url init k st).2 = .failure e → ∃ m, e = .apiError m := by
  induction k with
  | zero =>
    intro st e h
    exact ⟨jsStringOfLast st.lastError, (CallResult.failure.inj h).symm⟩
  | succ k ih =>
    intro st e h
    rcases hr : runAttempt (env st.outcomes.length) url init st with st' | ⟨st', data⟩
    · rw [attemptLoop_succ_inl env url init k st st' hr] at h
      exact ih st' e h
    · rw [attemptLoop_succ_inr env url init k st st' data hr] at h
      exact absurd h (by simp)

/-! ### Claim theorems -/

/-- C6: for every call with an empty endpoint path, the client fails
immediately with the validation error, before any network activity: zero
fetch invocations are recorded (and no timer was ever armed, since
`endpointSchema.parse` throws before `setTimeout` runs). -/
theorem C6_empty_endpoint_fails_with_zero_calls (baseUrl : String)
    (options : RequestInit) (env : Nat → AttemptSpec) :
    (apiClient baseUrl "" options env).2 = .failure (.zodError zodMinMessage) ∧
    (apiClient baseUrl "" options env).1.fetches = [] ∧
    (apiClient baseUrl "" options env).1.timerArmed = false := by
  refine ⟨rfl, rfl, rfl⟩

/-- C1 counterexample: with the concrete environment `envParseThenOk`, the
first attempt completes without a transport exception and returns the
successful HTTP status 200 (its recorded outcome is `okBody _`), so the
claim requires the client to return that attempt's parsed body after
exactly one network call; instead the body fails to parse, the client
issues a second network call and returns the second attempt's body after
two calls. -/
theorem C1_counterexample :
    (apiClient "https://api.example.com" "/articles" emptyInit envParseThenOk).1.outcomes.get? 0
        = some (.okBody (.invalid "Unexpected token u in JSON")) ∧
    (apiClient "https://api.example.com" "/articles" emptyInit envParseThenOk).2
        = .success "articleB" ∧
    (apiClient "https://api.example.com" "/articles" emptyInit envParseThenOk).1.fetches.length
        = 2 := by
  refine ⟨rfl, rfl, rfl⟩

/-- C1 (amended): if attempt `n + 1` (0-indexed position `n` in the trace)
is the first attempt that completes without a transport exception, returns
a successful HTTP status, AND whose response body parses, then the client
returns that attempt's parsed body and performs exactly `n + 1` sequential
network calls, skipping all remaining retries.  (A trace entry
`okBody (valid d)` at position `n` can only be the first such attempt: any
earlier one would have ended the trace at its own position.) -/
theorem C1_first_parsed_success_short_circuits (baseUrl endpoint : String)
    (options : RequestInit) (env : Nat → AttemptSpec) (n : Nat) (d : String)
    (hget : (apiClient baseUrl endpoint options env).1.outcomes.get? n
        = some (.okBody (.valid d))) :
    (apiClient baseUrl endpoint options env).2 = .success d ∧
    (apiClient baseUrl endpoint options env).1.outcomes.length = n + 1 ∧
    (apiClient baseUrl endpoint options env).1.fetches.length = n + 1 := by
  by_cases hep : endpoint = ""
  · subst hep
    have hnil : (apiClient baseUrl "" options env).1.outcomes = [] := rfl
    rw [hnil] at hget
    exact absurd hget (by simp)
  · rw [apiClient_ne_empty baseUrl endpoint options env hep] at hget ⊢
    have h := attemptLoop_firstValid env (baseUrl ++ endpoint) (buildInit options) 3
      initialState n d (Nat.zero_le n) hget
    refine ⟨h.1, h.2, ?_⟩
    obtain ⟨t, f, ht, hf, hlen, _⟩ := attemptLoop_trace_extend env (baseUrl ++ endpoint)
      (buildInit options) 3 initialState
    have h2 := h.2
    rw [ht] at h2
    simp only [initialState, List.nil_append] at h2
    rw [hf]
    simp only [initialState, List.nil_append]
    rw [← hlen]
    exact h2

/-- C1 witness: a first attempt that rejects at transport level followed by
a second attempt that succeeds and parses yields the second attempt's body
after exactly two calls. -/
theorem C1_witness :
    (apiClient "https://api.example.com" "/articles" emptyInit envNetThenOk).2
        = .success "articleB" ∧
    (apiClient "https://api.example.com" "/articles" emptyInit envNetThenOk).1.outcomes.length
        = 2 ∧
    (apiClient "https://api.example.com" "/articles" emptyInit envNetThenOk).1.fetches.length
        = 2 :=
  C1_first_parsed_success_short_circuits "https://api.example.com" "/articles" emptyInit
    envNetThenOk 1 "articleB" rfl

/-- C2: for every call with a non-empty endpoint path in which all three
attempts fail — each by transport exception, abort, or non-success HTTP
status — the client makes exactly three network calls and then fails with a
normalized `ApiError` whose message is `String(lastError)`, the description
of the last recorded failure. -/
theorem C2_exhaustion_three_calls_embeds_last_error (baseUrl endpoint : String)
    (options : RequestInit) (env : Nat → AttemptSpec)
    (hep : endpoint ≠ "")
    (hall : ∀ o ∈ (apiClient baseUrl endpoint options env).1.outcomes,
        isListedFailure o = true) :
    (apiClient baseUrl endpoint options env).1.fetches.length = 3 ∧
    (apiClient baseUrl endpoint options env).1.outcomes.length = 3 ∧
    ∃ olast,
      (apiClient baseUrl endpoint options env).1.outcomes.getLast? = some olast ∧
      (apiClient baseUrl endpoint options env).2 =
        .failure (.apiError (jsErrorString (errorOfOutcome olast))) := by
  rw [apiClient_ne_empty baseUrl endpoint options env hep] at hall ⊢
  have hclean : ∀ o ∈ (attemptLoop env (baseUrl ++ endpoint) (buildInit options) 3
      initialState).1.outcomes, isCleanSuccess o = false := by
    intro o ho
    have hl := hall o ho
    cases o with
    | aborted => rfl
    | netErr d => rfl
    | badStatus s => rfl
    | okBody b => simp [isListedFailure] at hl
  obtain ⟨h1, h2, h3, h4⟩ := attemptLoop_exhaust env (baseUrl ++ endpoint)
    (buildInit options) 3 initialState rfl hclean
  refine ⟨h2, h1, ?_⟩
  cases hgo : (attemptLoop env (baseUrl ++ endpoint) (buildInit options) 3
      initialState).1.outcomes.getLast? with
  | none =>
    have hnil := List.getLast?_eq_none.mp hgo
    rw [hnil] at h1
    simp [initialState] at h1
  | some olast =>
    refine ⟨olast, rfl, ?_⟩
    rw [h4, h3, hgo]
    rfl

/-- C2 witness: three immediate transport rejections give three calls and
the final `ApiError` embedding the last rejection's description. -/
theorem C2_witness :
    (apiClient "https://api.example.com" "/articles" emptyInit envAllNetFail).1.fetches.length
        = 3 ∧
    (apiClient "https://api.example.com" "/articles" emptyInit envAllNetFail).1.outcomes.length
        = 3 ∧
    ∃ olast,
      (apiClient "https://api.example.com" "/articles" emptyInit envAllNetFail).1.outcomes.getLast?
          = some olast ∧
      (apiClient "https://api.example.com" "/articles" emptyInit envAllNetFail).2 =
        .failure (.apiError (jsErrorString (errorOfOutcome olast))) :=
  C2_exhaustion_three_calls_embeds_last_error "https://api.example.com" "/articles"
    emptyInit envAllNetFail (by decide) (by decide)

/-- C3 counterexample: a validation failure surfaces as the `ZodError`
thrown by `endpointSchema.parse` — the source never wraps it — while an
exhaustion failure surfaces as an `ApiError`; at these concrete inputs the
two reported errors have different kinds, so the failing stage is
observable through the error's kind, contradicting the claim that both
stages are reported as the same normalized error kind. -/
theorem C3_counterexample :
    (apiClient "https://api.example.com" "" emptyInit envAllNetFail).2
        = .failure (.zodError zodMinMessage) ∧
    (apiClient "https://api.example.com" "/articles" emptyInit envAllNetFail).2
        = .failure (.apiError (jsErrorString (.typeError "fetch failed"))) ∧
    JsError.zodError zodMinMessage
        ≠ JsError.apiError (jsErrorString (.typeError "fetch failed")) := by
  refine ⟨rfl, rfl, by decide⟩

/-- C3 (amended): validation failures are reported as a `ZodError` (the
schema parse error escapes unwrapped) while exhaustion failures are
reported as the normalized `ApiError`; the two kinds are distinct, so the
stage that failed IS observable through the error's kind, not only through
its message. -/
theorem C3_validation_and_exhaustion_kinds_differ :
    (∀ (baseUrl : String) (options : RequestInit) (env : Nat → AttemptSpec),
      (apiClient baseUrl "" options env).2 = .failure (.zodError zodMinMessage)) ∧
    (∀ (baseUrl endpoint : String) (options : RequestInit) (env : Nat → AttemptSpec)
        (e : JsError),
      endpoint ≠ "" →
      (apiClient baseUrl endpoint options env).2 = .failure e →
      ∃ m, e = .apiError m) ∧
    (∀ m m', JsError.zodError m ≠ JsError.apiError m') := by
  refine ⟨?_, ?_, ?_⟩
  · intro baseUrl options env
    rfl
  · intro baseUrl endpoint options env e hep h
    rw [apiClient_ne_empty baseUrl endpoint options env hep] at h
    exact attemptLoop_failure_is_apiError env (baseUrl ++ endpoint) (buildInit options) 3
      initialState e h
  · intro m m' h
    exact JsError.noConfusion h

/-- C3 witness: the exhausted run over `envAllNetFail` fails with an error
of the `ApiError` kind. -/
theorem C3_witness :
    ∃ m, JsError.apiError (jsErrorString (.typeError "fetch failed")) = .apiError m :=
  C3_validation_and_exhaustion_kinds_differ.2.1 "https://api.example.com" "/articles"
    emptyInit envAllNetFail (.apiError (jsErrorString (.typeError "fetch failed")))
    (by decide) rfl

/-- C4 (claim is right, code is wrong): on the exhaustion path in which
every fetch rejects at transport level, the call completes (throws) with
the timer still armed — the source's `clearTimeout` runs only after a fetch
resolves, so this exit path leaves a pending timer behind, contradicting
the claim that the armed timer is cleared on every exit path. -/
theorem C4_code_bug_exhaustion_leaks_timer :
    (apiClient "https://api.example.com" "/articles" emptyInit envAllNetFail).1.timerArmed
        = true ∧
    (apiClient "https://api.example.com" "/articles" emptyInit envAllNetFail).2
        = .failure (.apiError (jsErrorString (.typeError "fetch failed"))) ∧
    (apiClient "https://api.example.com" "/articles" emptyInit envAllNetFail).1.fetches.length
        = 3 := by
  refine ⟨rfl, rfl, rfl⟩

/-- C5 counterexample: with `envStatusThenSlow` the first attempt resolves
after 2 ms with status 404, at which point the source's `clearTimeout`
runs; the second attempt then stays in flight from 2 ms to 30002 ms —
far past the 10000 ms mark, i.e. it does not complete within 10,000 ms —
yet it is never aborted: its recorded outcome is the ordinary transport
failure `netErr`, not `aborted`, and the controller is never aborted.
This contradicts the claim that EVERY in-flight attempt not completing
within 10,000 ms is aborted and recorded as a failure the way a transport
exception would be. -/
theorem C5_counterexample :
    (apiClient "https://api.example.com" "/articles" emptyInit envStatusThenSlow).1.outcomes.get? 1
        = some (.netErr "timeout much later") ∧
    (apiClient "https://api.example.com" "/articles" emptyInit envStatusThenSlow).1.elapsed
        = 30002 ∧
    (apiClient "https://api.example.com" "/articles" emptyInit envStatusThenSlow).1.ctrlAborted
        = false ∧
    (apiClient "https://api.example.com" "/articles" emptyInit envStatusThenSlow).1.timerArmed
        = false := by
  refine ⟨rfl, rfl, rfl, rfl⟩

/-- C5 (amended): an in-flight attempt that has not completed within
10000 ms of the call's start is — while the single timeout timer is still
armed (no earlier attempt has resolved a response and cleared it, and the
controller is not yet aborted) — aborted by the timer and recorded as a
failed attempt: one fetch invocation recorded, one failing outcome
appended, `lastError` set, and the loop carrying on with the remaining
attempts exactly as it does after a transport exception (compare
`runAttempt_netError`) — rather than hanging or terminating the whole call
outside the retry policy. -/
theorem C5_timeout_recorded_as_failed_attempt (env : Nat → AttemptSpec)
    (url : String) (init : RequestInit) (k : Nat) (st : CallState)
    (harm : st.timerArmed = true) (hab : st.ctrlAborted = false)
    (hover : 10000 < st.elapsed + (env st.outcomes.length).duration) :
    attemptLoop env url init (k + 1) st =
      attemptLoop env url init k
        { st with fetches := st.fetches ++ [⟨url, init⟩],
                  elapsed := 10000, timerArmed := false, ctrlAborted := true,
                  outcomes := st.outcomes ++ [.aborted],
                  lastError := some .abortError } :=
  attemptLoop_succ_inl env url init k st _
    (runAttempt_timerFires (env st.outcomes.length) url init st hab harm hover)

/-- C5 witness: an attempt scripted to stay in flight 20000 ms is aborted
at the 10000 ms deadline and the loop continues with two attempts left. -/
theorem C5_witness :
    attemptLoop envAllSlow "https://api.example.com/articles" emptyInit 3 initialState =
      attemptLoop envAllSlow "https://api.example.com/articles" emptyInit 2
        { initialState with
            fetches := initialState.fetches
              ++ [⟨"https://api.example.com/articles", emptyInit⟩],
            elapsed := 10000, timerArmed := false, ctrlAborted := true,
            outcomes := initialState.outcomes ++ [.aborted],
            lastError := some .abortError } :=
  C5_timeout_recorded_as_failed_attempt envAllSlow "https://api.example.com/articles"
    emptyInit 2 initialState rfl rfl (by decide)

/-- C7: the client is stateless across invocations except for the
externally supplied base address: a call leaves the module state (which
holds only the base address — the source module has no mutable module-level
binding) unchanged, and issuing the same successful call twice in sequence
yields two identical, independent successful outcomes, each produced by a
run that starts from the freshly initialized per-call state. -/
theorem C7_stateless_idempotent_calls (ms : ModuleState) (endpoint : String)
    (options : RequestInit) (env : Nat → AttemptSpec) (d : String)
    (h : (apiClient ms.baseUrl endpoint options env).2 = .success d) :
    (moduleCall ms endpoint options env).2 = ms ∧
    ((moduleCall ms endpoint options env).1).2 = .success d ∧
    ((moduleCall (moduleCall ms endpoint options env).2 endpoint options env).1).2
        = .success d ∧
    (moduleCall (moduleCall ms endpoint options env).2 endpoint options env).1
        = (moduleCall ms endpoint options env).1 :=
  ⟨rfl, h, h, rfl⟩

/-- C7 witness: a call that succeeds with `"payload"` does so on both of
two sequential invocations, with the module state unchanged between them. -/
theorem C7_witness :
    (moduleCall ⟨"https://api.example.com"⟩ "/articles" emptyInit envAllOk).2
        = ⟨"https://api.example.com"⟩ ∧
    ((moduleCall ⟨"https://api.example.com"⟩ "/articles" emptyInit envAllOk).1).2
        = .success "payload" ∧
    ((moduleCall (moduleCall ⟨"https://api.example.com"⟩ "/articles" emptyInit envAllOk).2
        "/articles" emptyInit envAllOk).1).2 = .success "payload" ∧
    (moduleCall (moduleCall ⟨"https://api.example.com"⟩ "/articles" emptyInit envAllOk).2
        "/articles" emptyInit envAllOk).1
        = (moduleCall ⟨"https://api.example.com"⟩ "/articles" emptyInit envAllOk).1 :=
  C7_stateless_idempotent_calls ⟨"https://api.example.com"⟩ "/articles" emptyInit
    envAllOk "payload" rfl

/-- C8: cancellation is internal-only: every fetch the call issues receives
the caller's transport options unchanged — same method, headers and body —
except that the `signal` slot always holds the client's own internal
controller signal, never a caller-supplied one, so only the client's
timeout can abort an in-flight attempt. -/
theorem C8_caller_options_forwarded_signal_replaced (baseUrl endpoint : String)
    (options : RequestInit) (env : Nat → AttemptSpec) (fc : FetchCall)
    (hfc : fc ∈ (apiClient baseUrl endpoint options env).1.fetches) :
    fc.init.method = options.method ∧ fc.init.headers = options.headers ∧
    fc.init.body = options.body ∧ fc.init.signal = some SignalRef.internal := by
  by_cases hep : endpoint = ""
  · subst hep
    have hnil : (apiClient baseUrl "" options env).1.fetches = [] := rfl
    rw [hnil] at hfc
    exact absurd hfc (List.not_mem_nil fc)
  · rw [apiClient_ne_empty baseUrl endpoint options env hep] at hfc
    obtain ⟨t, f, _, hf, _, hmem⟩ := attemptLoop_trace_extend env (baseUrl ++ endpoint)
      (buildInit options) 3 initialState
    rw [hf] at hfc
    simp only [initialState, List.nil_append] at hfc
    have hfe := hmem fc hfc
    rw [hfe]
    exact ⟨rfl, rfl, rfl, rfl⟩

/-- C8 witness: the recorded fetch of a successful call carries the
caller's (empty) options with the signal replaced by the internal one. -/
theorem C8_witness :
    (buildInit emptyInit).method = emptyInit.method ∧
    (buildInit emptyInit).headers = emptyInit.headers ∧
    (buildInit emptyInit).body = emptyInit.body ∧
    (buildInit emptyInit).signal = some SignalRef.internal :=
  C8_caller_options_forwarded_signal_replaced "https://api.example.com" "/articles"
    emptyInit envAllOk ⟨"https://api.example.com" ++ "/articles", buildInit emptyInit⟩
    (by decide)

/-- C9: an attempt that completes with a successful HTTP status but whose
response body fails to parse is treated as a failed attempt: the parse
failure is recorded as `lastError`, the loop proceeds to the next retry,
and — when it was the final attempt — the call exhausts with the normal
`ApiError` embedding the parse failure's description, never returning a
success or a dedicated parse error. -/
theorem C9_parse_failure_treated_as_failed_attempt (env : Nat → AttemptSpec)
    (url : String) (init : RequestInit) (k : Nat) (st : CallState)
    (status : Nat) (d : String)
    (hab : st.ctrlAborted = false)
    (harm : st.timerArmed = true → st.elapsed + (env st.outcomes.length).duration ≤ 10000)
    (hres : (env st.outcomes.length).result = .response status (.invalid d))
    (hok : resOk status = true) :
    attemptLoop env url init (k + 1) st =
      attemptLoop env url init k
        { st with fetches := st.fetches ++ [⟨url, init⟩],
                  elapsed := st.elapsed + (env st.outcomes.length).duration,
                  timerArmed := false,
                  outcomes := st.outcomes ++ [.okBody (.invalid d)],
                  lastError := some (.jsonError d) } ∧
    (k = 0 →
      (attemptLoop env url init (k + 1) st).2 =
        .failure (.apiError (jsErrorString (.jsonError d)))) := by
  have hstep := attemptLoop_succ_inl env url init k st _
    (runAttempt_okInvalid (env st.outcomes.length) url init st status d hab harm hres hok)
  refine ⟨hstep, ?_⟩
  intro hk
  subst hk
  rw [hstep]
  rfl

/-- C9 witness: a single-remaining-attempt run whose 200-status response
fails to parse exhausts with the `ApiError` embedding the parse error. -/
theorem C9_witness :
    (attemptLoop envParseOnly "https://api.example.com/articles" emptyInit 1 initialState).2 =
      .failure (.apiError (jsErrorString (.jsonError "bad json"))) :=
  (C9_parse_failure_treated_as_failed_attempt envParseOnly
    "https://api.example.com/articles" emptyInit 0 initialState 200 "bad json"
    rfl (fun _ => by decide) rfl rfl).2 rfl

/-- C10 counterexample: with `envClearThenSlow` the first attempt resolves
after 1 ms (clearing the timer) with status 500, and the second attempt
then stays in flight from 1 ms to 20001 ms — far past the 10000 ms mark —
yet completes as an ordinary transport failure with the controller never
aborted; the whole call's network waiting spans 20001 ms, so the 10000 ms
budget does not bound the whole call as the claim states. -/
theorem C10_counterexample :
    (apiClient "https://api.example.com" "/articles" emptyInit envClearThenSlow).1.outcomes.get? 1
        = some (.netErr "boom") ∧
    (apiClient "https://api.example.com" "/articles" emptyInit envClearThenSlow).1.elapsed
        = 20001 ∧
    (apiClient "https://api.example.com" "/articles" emptyInit envClearThenSlow).1.ctrlAborted
        = false := by
  refine ⟨rfl, rfl, rfl⟩

/-- C10 (amended): one abort controller is created per call, shared by all
three attempts and never reset: once aborted, every subsequent attempt
fails immediately with an abort error, performing no network wait (the
recorded state advances neither the clock nor the controller); and whenever
the timeout fires during a call, the call's total network waiting stops at
exactly the 10000 ms mark measured from the start of the whole call, not of
the attempt.  (After a response has resolved, however, the timer is cleared
and later attempts are unbounded — see `C10_counterexample`.) -/
theorem C10_shared_controller_shared_deadline :
    (∀ (env : Nat → AttemptSpec) (url : String) (init : RequestInit) (k : Nat)
        (st : CallState),
      st.ctrlAborted = true →
      attemptLoop env url init (k + 1) st =
        attemptLoop env url init k
          { st with fetches := st.fetches ++ [⟨url, init⟩],
                    outcomes := st.outcomes ++ [.aborted],
                    lastError := some .abortError }) ∧
    (∀ (baseUrl endpoint : String) (options : RequestInit) (env : Nat → AttemptSpec),
      (apiClient baseUrl endpoint options env).1.ctrlAborted = true →
      (apiClient baseUrl endpoint options env).1.elapsed = 10000) := by
  constructor
  · intro env url init k st h
    exact attemptLoop_succ_inl env url init k st _ (runAttempt_instaAbort _ url init st h)
  · intro baseUrl endpoint options env h
    by_cases hep : endpoint = ""
    · subst hep
      have hctl : (apiClient baseUrl "" options env).1.ctrlAborted = false := rfl
      exact absurd (hctl.symm.trans h) (by simp)
    · rw [apiClient_ne_empty baseUrl endpoint options env hep] at h ⊢
      exact attemptLoop_abort_elapsed env (baseUrl ++ endpoint) (buildInit options) 3
        initialState (fun hc => absurd hc (by decide)) h

/-- C10 witness: a post-abort iteration insta-fails without advancing the
clock, and a call whose first attempt hits the deadline ends with its total
elapsed network time pegged at exactly 10000 ms. -/
theorem C10_witness :
    attemptLoop envAllSlow "https://api.example.com/articles" emptyInit 1 abortedState =
      attemptLoop envAllSlow "https://api.example.com/articles" emptyInit 0
        { abortedState with
            fetches := abortedState.fetches
              ++ [⟨"https://api.example.com/articles", emptyInit⟩],
            outcomes := abortedState.outcomes ++ [.aborted],
            lastError := some .abortError } ∧
    (apiClient "https://api.example.com" "/articles" emptyInit envAllSlow).1.elapsed
        = 10000 :=
  ⟨C10_shared_controller_shared_deadline.1 envAllSlow "https://api.example.com/articles"
      emptyInit 0 abortedState rfl,
   C10_shared_controller_shared_deadline.2 "https://api.example.com" "/articles"
      emptyInit envAllSlow rfl⟩

end ArtOfficial
